import Mathlib

/-!
Shallow embedding of the GalaSwap trading bot's risk-and-allocation core
(`RiskManager` in the risk-manager module and `PortfolioManager` in
`src/strategies/portfolio-manager.ts`), with theorems checking the
specification's claims about it.  JavaScript numbers are modelled as
rationals, `Map`s as association lists in insertion order, and
`Math.random()` as draws from an ambient stream `rand : Nat → ℚ`
indexed by a counter threaded through the state.
-/

/-- Lifecycle state of a `Position` (`'open' | 'closed' | 'stopped'`). -/
inductive PositionStatus where
  | open_
  | closed
  | stopped
deriving DecidableEq, Repr

/-- `Position` from `src/types/index.ts`.  The decimal-string amounts are
modelled by their parsed numeric value; `createdAt`/`updatedAt` are day/time
stamps (`createdAt` is only ever used through `toDateString` comparison, so a
day index suffices for it as used by the risk manager). -/
structure Position where
  id : String
  tokenIn : String
  tokenOut : String
  amountIn : ℚ
  amountOut : ℚ
  entryPrice : ℚ
  currentPrice : ℚ
  stopLoss : Option ℚ
  takeProfit : Option ℚ
  status : PositionStatus
  createdAt : Nat
  updatedAt : Nat
deriving DecidableEq, Repr

/-- `RiskLimits` from the risk-manager module. -/
structure RiskLimits where
  maxTotalExposure : ℚ
  maxPositionSize : ℚ
  maxDailyLoss : ℚ
  maxDrawdown : ℚ
  maxCorrelation : ℚ
  maxLeverage : ℚ
  minLiquidity : ℚ
  maxVolatility : ℚ
deriving DecidableEq, Repr

/-- `PortfolioMetrics` from the risk-manager module.  `sharpeRatio` keeps the
source's meaning under a shorter Lean name (`sharpe`).  The correlation matrix
(`Record<string, number>`) is an association list keyed by `"t1-t2"`. -/
structure PortfolioMetrics where
  totalValue : ℚ
  totalExposure : ℚ
  dailyPnL : ℚ
  maxDrawdown : ℚ
  sharpe : ℚ
  winRate : ℚ
  averageWin : ℚ
  averageLoss : ℚ
  correlationMatrix : List (String × ℚ)
  volatility : ℚ
  liquidity : ℚ
deriving DecidableEq, Repr

/-- `RiskManager.getDefaultRiskLimits`. -/
def getDefaultRiskLimits : RiskLimits :=
  { maxTotalExposure := 10000
    maxPositionSize := 1000
    maxDailyLoss := 500
    maxDrawdown := 15/100
    maxCorrelation := 7/10
    maxLeverage := 1
    minLiquidity := 10000
    maxVolatility := 5/10 }

/-- `RiskManager.initializePortfolioMetrics`. -/
def initializePortfolioMetrics : PortfolioMetrics :=
  { totalValue := 0
    totalExposure := 0
    dailyPnL := 0
    maxDrawdown := 0
    sharpe := 0
    winRate := 0
    averageWin := 0
    averageLoss := 0
    correlationMatrix := []
    volatility := 0
    liquidity := 0 }

/-- Mutable state of the `RiskManager` singleton: its limits, its derived
metrics, the last supplied position snapshot (the `positions` map, values in
insertion order), the daily start value and the high-water mark
`maxPortfolioValue`.  `rngCtr` indexes the next draw of the ambient
`Math.random()` stream. -/
structure RMState where
  riskLimits : RiskLimits
  portfolioMetrics : PortfolioMetrics
  positions : List Position
  dailyStartValue : ℚ
  maxPortfolioValue : ℚ
  rngCtr : Nat
deriving DecidableEq, Repr

/-- The state built by the `RiskManager` constructor. -/
def initialRMState : RMState :=
  { riskLimits := getDefaultRiskLimits
    portfolioMetrics := initializePortfolioMetrics
    positions := []
    dailyStartValue := 0
    maxPortfolioValue := 0
    rngCtr := 0 }

/-- Result record of `checkPositionRisk`. -/
structure RiskCheckResult where
  allowed : Bool
  reason : Option String
  riskScore : ℚ
deriving DecidableEq, Repr

/-- `RiskManager.calculateCorrelationRisk`: the number of token occurrences
(among the `tokenIn`/`tokenOut` of every tracked position) equal to either
proposed token, divided by `max(total occurrences, 1)`. -/
def calculateCorrelationRisk (positions : List Position) (tokenIn tokenOut : String) : ℚ :=
  let existingTokens := positions.flatMap (fun p => [p.tokenIn, p.tokenOut])
  let tokenCount := (existingTokens.filter (fun t => t == tokenIn || t == tokenOut)).length
  (tokenCount : ℚ) / max (existingTokens.length : ℚ) 1

/-- The `try` body of `RiskManager.checkPositionRisk`: four sequential hard
rejects, then the weighted composite score with correlation and liquidity
penalties, decided against the threshold 80. -/
def checkPositionRiskCore (s : RMState) (tokenIn tokenOut : String)
    (amount price : ℚ) : RiskCheckResult :=
  let positionValue := amount * price
  if positionValue > s.riskLimits.maxPositionSize then
    { allowed := false
      reason := some ("Position size " ++ toString positionValue ++
        " exceeds maximum " ++ toString s.riskLimits.maxPositionSize)
      riskScore := 100 }
  else
    let newTotalExposure := s.portfolioMetrics.totalExposure + positionValue
    if newTotalExposure > s.riskLimits.maxTotalExposure then
      { allowed := false
        reason := some ("Total exposure " ++ toString newTotalExposure ++
          " would exceed maximum " ++ toString s.riskLimits.maxTotalExposure)
        riskScore := 100 }
    else if s.portfolioMetrics.dailyPnL < - s.riskLimits.maxDailyLoss then
      { allowed := false
        reason := some ("Daily loss " ++ toString |s.portfolioMetrics.dailyPnL| ++
          " exceeds limit " ++ toString s.riskLimits.maxDailyLoss)
        riskScore := 100 }
    else if s.portfolioMetrics.maxDrawdown > s.riskLimits.maxDrawdown then
      { allowed := false
        reason := some ("Drawdown " ++ toString s.portfolioMetrics.maxDrawdown ++
          " exceeds limit " ++ toString s.riskLimits.maxDrawdown)
        riskScore := 100 }
    else
      let base : ℚ :=
        positionValue / s.riskLimits.maxPositionSize * 30 +
        newTotalExposure / s.riskLimits.maxTotalExposure * 25 +
        |s.portfolioMetrics.dailyPnL / s.riskLimits.maxDailyLoss| * 20 +
        s.portfolioMetrics.maxDrawdown / s.riskLimits.maxDrawdown * 15 +
        s.portfolioMetrics.volatility / s.riskLimits.maxVolatility * 10
      let correlationRisk := calculateCorrelationRisk s.positions tokenIn tokenOut
      let withCorr :=
        if correlationRisk > s.riskLimits.maxCorrelation then base + 20 else base
      let reasonsCorr : List String :=
        if correlationRisk > s.riskLimits.maxCorrelation then
          ["High correlation risk: " ++ toString correlationRisk]
        else []
      let score :=
        if s.portfolioMetrics.liquidity < s.riskLimits.minLiquidity then
          withCorr + 15
        else withCorr
      let reasonsLiq :=
        if s.portfolioMetrics.liquidity < s.riskLimits.minLiquidity then
          reasonsCorr ++ ["Low liquidity: " ++ toString s.portfolioMetrics.liquidity]
        else reasonsCorr
      let allowed := score < 80
      let reasonsAll :=
        if allowed then reasonsLiq
        else reasonsLiq ++ ["Risk score " ++ toString score ++ " exceeds threshold 80"]
      { allowed := allowed
        reason := if reasonsAll.length > 0 then some (String.intercalate ", " reasonsAll) else none
        riskScore := score }

/-- The `catch` clause of `checkPositionRisk`: a thrown computation is mapped
to the fail-closed result. -/
def catchRiskCheck (r : Except String RiskCheckResult) : RiskCheckResult :=
  match r with
  | Except.ok v => v
  | Except.error _ =>
    { allowed := false
      reason := some "Error calculating risk"
      riskScore := 100 }

/-- `RiskManager.checkPositionRisk`: the try body guarded by the catch
clause (the embedded body itself is total). -/
def checkPositionRisk (s : RMState) (tokenIn tokenOut : String)
    (amount price : ℚ) : RiskCheckResult :=
  catchRiskCheck (Except.ok (checkPositionRiskCore s tokenIn tokenOut amount price))

/-- Helper for `dedupFirst`: keep the first occurrence of each element,
remembering what has been seen. -/
def dedupFirstAux (seen : List String) : List String → List String
  | [] => []
  | t :: ts =>
    if seen.contains t then dedupFirstAux seen ts else t :: dedupFirstAux (t :: seen) ts

/-- Insertion-order deduplication, the behaviour of `[...new Set(xs)]`. -/
def dedupFirst (l : List String) : List String := dedupFirstAux [] l

/-- `RiskManager.calculateCorrelationMatrix`: one `Math.random()` draw per
ordered pair of distinct tokens, keyed `"t1-t2"`.  Returns the matrix together
with the advanced draw counter. -/
def calculateCorrelationMatrix (rand : Nat → ℚ) (ctr : Nat) (positions : List Position) :
    List (String × ℚ) × Nat :=
  let tokens := dedupFirst (positions.flatMap (fun p => [p.tokenIn, p.tokenOut]))
  let pairs := tokens.flatMap (fun t1 => (tokens.filter (fun t2 => t2 ≠ t1)).map (fun t2 => (t1, t2)))
  let entries := pairs.enum.map
    (fun pr => (pr.2.1 ++ "-" ++ pr.2.2, rand (ctr + pr.1) * (1/2)))
  (entries, ctr + pairs.length)

/-- `RiskManager.updatePortfolioMetrics` as a state transformer.  `today` is
the day stamp `new Date().toDateString()` resolves to.  Note which metric
fields the source recomputes: `totalValue`, `sharpeRatio`, `volatility` and
`liquidity` are never assigned, and the win-rate block runs only when the
snapshot has closed positions. -/
def updatePortfolioMetrics (rand : Nat → ℚ) (today : Nat) (ps : List Position)
    (s : RMState) : RMState :=
  let totalExposure := (ps.map (fun p => p.amountIn)).sum
  let todayPs := ps.filter (fun p => p.createdAt == today)
  let dailyPnL := (todayPs.map (fun p => p.amountOut - p.amountIn)).sum
  let currentValue := s.portfolioMetrics.totalValue
  let maxPV := if currentValue > s.maxPortfolioValue then currentValue else s.maxPortfolioValue
  let drawdown := if maxPV > 0 then (maxPV - currentValue) / maxPV else 0
  let closed := ps.filter (fun p => p.status == PositionStatus.closed)
  let winStats :=
    if closed.length > 0 then
      let profitable := closed.filter (fun p => p.amountOut > p.amountIn)
      let wins := profitable.map (fun p => p.amountOut - p.amountIn)
      let losses := (closed.filter (fun p => p.amountOut ≤ p.amountIn)).map
        (fun p => p.amountIn - p.amountOut)
      ((profitable.length : ℚ) / (closed.length : ℚ),
       if wins.length > 0 then wins.sum / (wins.length : ℚ) else 0,
       if losses.length > 0 then losses.sum / (losses.length : ℚ) else 0)
    else
      (s.portfolioMetrics.winRate, s.portfolioMetrics.averageWin, s.portfolioMetrics.averageLoss)
  let matrixCtr := calculateCorrelationMatrix rand s.rngCtr ps
  { s with
    positions := ps
    maxPortfolioValue := maxPV
    rngCtr := matrixCtr.2
    portfolioMetrics := { s.portfolioMetrics with
      totalExposure := totalExposure
      dailyPnL := dailyPnL
      maxDrawdown := drawdown
      winRate := winStats.1
      averageWin := winStats.2.1
      averageLoss := winStats.2.2
      correlationMatrix := matrixCtr.1 } }

/-- The violation list built by `RiskManager.checkRiskLimits` (the emitted
`SecurityEvent` carries exactly these strings). -/
def checkRiskLimitsViolations (s : RMState) : List String :=
  let v1 := if s.portfolioMetrics.totalExposure > s.riskLimits.maxTotalExposure then
    ["Total exposure limit exceeded"] else []
  let v2 := if s.portfolioMetrics.dailyPnL < - s.riskLimits.maxDailyLoss then
    v1 ++ ["Daily loss limit exceeded"] else v1
  if s.portfolioMetrics.maxDrawdown > s.riskLimits.maxDrawdown then
    v2 ++ ["Drawdown limit exceeded"] else v2

/-- `RiskManager.calculateOverallRiskScore`: four 25-weighted ratio terms,
then `Math.min(score, 100)`. -/
def calculateOverallRiskScore (s : RMState) : ℚ :=
  let score :=
    s.portfolioMetrics.totalExposure / s.riskLimits.maxTotalExposure * 25 +
    |s.portfolioMetrics.dailyPnL / s.riskLimits.maxDailyLoss| * 25 +
    s.portfolioMetrics.maxDrawdown / s.riskLimits.maxDrawdown * 25 +
    s.portfolioMetrics.volatility / s.riskLimits.maxVolatility * 25
  min score 100

/-- `Partial<RiskLimits>`: each field optionally provided. -/
structure RiskLimitsPatch where
  maxTotalExposure : Option ℚ := none
  maxPositionSize : Option ℚ := none
  maxDailyLoss : Option ℚ := none
  maxDrawdown : Option ℚ := none
  maxCorrelation : Option ℚ := none
  maxLeverage : Option ℚ := none
  minLiquidity : Option ℚ := none
  maxVolatility : Option ℚ := none
deriving DecidableEq, Repr

/-- The spread `{ ...current, ...newLimits }`: every provided field
overwrites, every omitted field is kept. -/
def mergeRiskLimits (l : RiskLimits) (p : RiskLimitsPatch) : RiskLimits :=
  { maxTotalExposure := p.maxTotalExposure.getD l.maxTotalExposure
    maxPositionSize := p.maxPositionSize.getD l.maxPositionSize
    maxDailyLoss := p.maxDailyLoss.getD l.maxDailyLoss
    maxDrawdown := p.maxDrawdown.getD l.maxDrawdown
    maxCorrelation := p.maxCorrelation.getD l.maxCorrelation
    maxLeverage := p.maxLeverage.getD l.maxLeverage
    minLiquidity := p.minLiquidity.getD l.minLiquidity
    maxVolatility := p.maxVolatility.getD l.maxVolatility }

/-- `RiskManager.updateRiskLimits`: merges and logs; the source performs no
range validation before merging. -/
def updateRiskLimits (p : RiskLimitsPatch) (s : RMState) : RMState :=
  { s with riskLimits := mergeRiskLimits s.riskLimits p }

/-- A state-mutating `RiskManager` operation (`checkPositionRisk` and
`getRiskMetrics` do not mutate state). -/
inductive RMOp where
  | update (today : Nat) (ps : List Position)
  | limits (p : RiskLimitsPatch)

/-- Apply one operation. -/
def applyRMOp (rand : Nat → ℚ) (s : RMState) : RMOp → RMState
  | RMOp.update today ps => updatePortfolioMetrics rand today ps s
  | RMOp.limits p => updateRiskLimits p s

/-- Run a sequence of mutating operations. -/
def runRMOps (rand : Nat → ℚ) (ops : List RMOp) (s : RMState) : RMState :=
  ops.foldl (applyRMOp rand) s

/-- Run a sequence of `updatePortfolioMetrics` calls only (each with its day
stamp and snapshot). -/
def runUpdates (rand : Nat → ℚ) (inputs : List (Nat × List Position)) (s : RMState) : RMState :=
  inputs.foldl (fun t inp => updatePortfolioMetrics rand inp.1 inp.2 t) s

/-- Strategy risk level (`'low' | 'medium' | 'high'`). -/
inductive RiskLevel where
  | low
  | medium
  | high
deriving DecidableEq, Repr

/-- `PortfolioAllocation` from `src/strategies/portfolio-manager.ts`. -/
structure PortfolioAllocation where
  strategy : String
  allocation : ℚ
  riskLevel : RiskLevel
  maxPositionSize : ℚ
  enabled : Bool
deriving DecidableEq, Repr

/-- `DiversificationConfig` from `src/strategies/portfolio-manager.ts`. -/
structure DiversificationConfig where
  maxCorrelation : ℚ
  maxExposurePerToken : ℚ
  maxExposurePerStrategy : ℚ
  rebalanceThreshold : ℚ
  emergencyStopLoss : ℚ
  maxDrawdown : ℚ
deriving DecidableEq, Repr

/-- `PortfolioManager.getDefaultDiversificationConfig`. -/
def getDefaultDiversificationConfig : DiversificationConfig :=
  { maxCorrelation := 6/10
    maxExposurePerToken := 3/10
    maxExposurePerStrategy := 4/10
    rebalanceThreshold := 1/10
    emergencyStopLoss := 2/10
    maxDrawdown := 15/100 }

/-- The per-strategy state the portfolio manager observes and mutates through
the `BaseTradingStrategy` interface: the unit's `enabled` flag (set by
`setEnabled`), its `isRunning` flag (cleared by every concrete `stop()`), and
its position map. -/
structure StrategyState where
  name : String
  enabled : Bool
  isRunning : Bool
  positions : List Position
deriving DecidableEq, Repr

/-- `PortfolioManager` state: the `strategies` map, the `allocations` map
(both in insertion order), `totalPortfolioValue` and `isRunning`. -/
structure PMState where
  strategies : List StrategyState
  allocations : List (String × PortfolioAllocation)
  totalPortfolioValue : ℚ
  isRunning : Bool
deriving DecidableEq, Repr

/-- `strategy.setEnabled(e)` on the strategy registered under `name`; a
missing name leaves every entry untouched, which also covers the source's
`if (strategy)` null guard. -/
def setStrategyEnabled (name : String) (e : Bool) (strats : List StrategyState) :
    List StrategyState :=
  strats.map (fun st => if st.name == name then { st with enabled := e } else st)

/-- `PortfolioManager.reduceHighRiskExposure`: for each allocation with
`riskLevel === 'high' && enabled`, calls `setEnabled(false)` on the strategy
of that name. -/
def reduceHighRiskExposure (s : PMState) : PMState :=
  { s with strategies :=
      (s.allocations.foldl
        (fun strats pr =>
          if pr.2.riskLevel == RiskLevel.high && pr.2.enabled then
            setStrategyEnabled pr.1 false strats
          else strats)
        s.strategies) }

/-- `PortfolioManager.checkDiversification`, with the composite risk score
read from `riskManager.getRiskMetrics()` passed in. -/
def checkDiversification (riskScore : ℚ) (s : PMState) : PMState :=
  if riskScore > 70 then reduceHighRiskExposure s else s

/-- The position-closing loop of `emergencyStop`: every position with
`status === 'open'` is closed via `closePosition(id, 'stopped')`, which sets
the status and `updatedAt`. -/
def forceCloseOpen (now : Nat) (ps : List Position) : List Position :=
  ps.map (fun p =>
    if p.status == PositionStatus.open_ then
      { p with status := PositionStatus.stopped, updatedAt := now }
    else p)

/-- `PortfolioManager.emergencyStop`: stops every strategy (each concrete
`stop()` clears the unit's running flag), force-closes every still-open
position with status `stopped`, and clears `isRunning`. -/
def emergencyStop (now : Nat) (s : PMState) : PMState :=
  let stoppedStrats := s.strategies.map (fun st => { st with isRunning := false })
  let closedAll := stoppedStrats.map (fun st => { st with positions := forceCloseOpen now st.positions })
  { s with strategies := closedAll, isRunning := false }

/-- Names of allocations with `riskLevel = high` and `enabled = true`, in map
order: exactly the strategies `reduceHighRiskExposure` disables. -/
def hiNames (allocs : List (String × PortfolioAllocation)) : List String :=
  (allocs.filter (fun pr => pr.2.riskLevel == RiskLevel.high && pr.2.enabled)).map Prod.fst

/-- Disable a strategy when its name is in the given list, else leave it. -/
def disableIn (names : List String) (st : StrategyState) : StrategyState :=
  if st.name ∈ names then { st with enabled := false } else st

/-- C1: with `amount, price > 0`, whenever the proposed position passes the
position-size check (so the exposure branch is reached) but
`totalExposure + amount*price` exceeds `maxTotalExposure`,
`checkPositionRisk` returns `allowed = false`, `riskScore = 100` and the
exposure-limit reason — for every state, i.e. regardless of the daily-loss,
drawdown or composite-score inputs, the second hard reject short-circuits. -/
theorem checkPositionRisk_exposure_hard_reject (s : RMState) (tokenIn tokenOut : String)
    (amount price : ℚ) (hA : 0 < amount) (hP : 0 < price)
    (hsize : ¬ amount * price > s.riskLimits.maxPositionSize)
    (hexp : s.portfolioMetrics.totalExposure + amount * price > s.riskLimits.maxTotalExposure) :
    checkPositionRisk s tokenIn tokenOut amount price =
      { allowed := false
        reason := some ("Total exposure " ++
          toString (s.portfolioMetrics.totalExposure + amount * price) ++
          " would exceed maximum " ++ toString s.riskLimits.maxTotalExposure)
        riskScore := 100 } := by
  simp only [checkPositionRisk, catchRiskCheck, checkPositionRiskCore]
  rw [if_neg hsize, if_pos hexp]

/-- State with total exposure close to the limit, used to witness C1. -/
def exposureWitnessState : RMState :=
  { initialRMState with
    portfolioMetrics := { initializePortfolioMetrics with totalExposure := 9500 } }

/-- Witness for C1 at a concrete input: position value 600 is under the
position-size limit 1000, but `9500 + 600` exceeds the exposure limit
10000, and the check rejects with risk score 100. -/
theorem checkPositionRisk_exposure_hard_reject_witness :
    (0 : ℚ) < 10 ∧ (0 : ℚ) < 60 ∧
    ¬ ((10 : ℚ) * 60 > exposureWitnessState.riskLimits.maxPositionSize) ∧
    exposureWitnessState.portfolioMetrics.totalExposure + (10 : ℚ) * 60 >
      exposureWitnessState.riskLimits.maxTotalExposure ∧
    (checkPositionRisk exposureWitnessState "GALA" "GUSDC" 10 60).allowed = false ∧
    (checkPositionRisk exposureWitnessState "GALA" "GUSDC" 10 60).riskScore = 100 := by
  have hsize : ¬ ((10 : ℚ) * 60 > exposureWitnessState.riskLimits.maxPositionSize) := by
    norm_num [exposureWitnessState, initialRMState, getDefaultRiskLimits]
  have hexp : exposureWitnessState.portfolioMetrics.totalExposure + (10 : ℚ) * 60 >
      exposureWitnessState.riskLimits.maxTotalExposure := by
    norm_num [exposureWitnessState, initialRMState, getDefaultRiskLimits,
      initializePortfolioMetrics]
  have h := checkPositionRisk_exposure_hard_reject exposureWitnessState "GALA" "GUSDC" 10 60
    (by norm_num) (by norm_num) hsize hexp
  exact ⟨by norm_num, by norm_num, hsize, hexp, by rw [h], by rw [h]⟩

/-- C3: the admission check fails closed — on the error path (the `catch`
clause applied to any thrown error) `checkPositionRisk`'s result is
`allowed = false` with `riskScore = 100` and an error reason; it is never
`allowed = true` there. -/
theorem checkPositionRisk_error_fails_closed (e : String) :
    (catchRiskCheck (Except.error e)).allowed = false ∧
    (catchRiskCheck (Except.error e)).riskScore = 100 ∧
    (catchRiskCheck (Except.error e)).reason = some "Error calculating risk" :=
  ⟨rfl, rfl, rfl⟩

/-- A partial limits update carrying a negative value, used against C4. -/
def negativePatch : RiskLimitsPatch := { maxPositionSize := some (-5) }

/-- C4 counterexample: an update containing a negative value is not rejected —
`updateRiskLimits` overwrites `maxPositionSize` (default 1000) with `-5`, so
the current limits do change. -/
theorem updateRiskLimits_accepts_negative :
    (updateRiskLimits negativePatch initialRMState).riskLimits.maxPositionSize = -5 ∧
    initialRMState.riskLimits.maxPositionSize = 1000 ∧
    (updateRiskLimits negativePatch initialRMState).riskLimits ≠ initialRMState.riskLimits := by
  have h1 : (updateRiskLimits negativePatch initialRMState).riskLimits.maxPositionSize = -5 := rfl
  refine ⟨h1, rfl, fun h => ?_⟩
  rw [h] at h1
  norm_num [initialRMState, getDefaultRiskLimits] at h1

/-- C4 amended: `updateRiskLimits` performs no range validation at all — it
unconditionally merges the partial update: every provided field overwrites the
current limit, whatever its value (negative and out-of-range values included),
and every omitted field is left unchanged.  No update is ever rejected. -/
theorem updateRiskLimits_merges_without_validation (p : RiskLimitsPatch) (s : RMState) :
    (updateRiskLimits p s).riskLimits =
      { maxTotalExposure := p.maxTotalExposure.getD s.riskLimits.maxTotalExposure
        maxPositionSize := p.maxPositionSize.getD s.riskLimits.maxPositionSize
        maxDailyLoss := p.maxDailyLoss.getD s.riskLimits.maxDailyLoss
        maxDrawdown := p.maxDrawdown.getD s.riskLimits.maxDrawdown
        maxCorrelation := p.maxCorrelation.getD s.riskLimits.maxCorrelation
        maxLeverage := p.maxLeverage.getD s.riskLimits.maxLeverage
        minLiquidity := p.minLiquidity.getD s.riskLimits.minLiquidity
        maxVolatility := p.maxVolatility.getD s.riskLimits.maxVolatility } := rfl

/-- State whose recorded total exposure is negative, used against C6. -/
def negativeExposureState : RMState :=
  { initialRMState with
    portfolioMetrics := { initializePortfolioMetrics with totalExposure := -20000 } }

/-- C6 counterexample: `Math.min(score, 100)` clamps only from above — with a
finite negative exposure metric the overall risk score is `-50`, outside
`[0,100]`. -/
theorem calculateOverallRiskScore_can_be_negative :
    calculateOverallRiskScore negativeExposureState = -50 ∧
    calculateOverallRiskScore negativeExposureState < 0 := by
  have h : calculateOverallRiskScore negativeExposureState = -50 := by
    norm_num [calculateOverallRiskScore, negativeExposureState, initialRMState,
      initializePortfolioMetrics, getDefaultRiskLimits, min_def]
  exact ⟨h, by rw [h]; norm_num⟩

/-- C6 amended: the overall risk score is clamped above at 100 in every state,
and it lies within `[0,100]` when the exposure, drawdown and volatility
metrics and their limits are nonnegative; the lower bound comes from the
arithmetic, not from clamping. -/
theorem calculateOverallRiskScore_range (s : RMState)
    (hte : 0 ≤ s.portfolioMetrics.totalExposure)
    (hmte : 0 ≤ s.riskLimits.maxTotalExposure)
    (hdd : 0 ≤ s.portfolioMetrics.maxDrawdown)
    (hmdd : 0 ≤ s.riskLimits.maxDrawdown)
    (hv : 0 ≤ s.portfolioMetrics.volatility)
    (hmv : 0 ≤ s.riskLimits.maxVolatility) :
    0 ≤ calculateOverallRiskScore s ∧ calculateOverallRiskScore s ≤ 100 := by
  unfold calculateOverallRiskScore
  refine ⟨le_min ?_ (by norm_num), min_le_right _ _⟩
  have t1 : 0 ≤ s.portfolioMetrics.totalExposure / s.riskLimits.maxTotalExposure * 25 :=
    mul_nonneg (div_nonneg hte hmte) (by norm_num)
  have t2 : 0 ≤ |s.portfolioMetrics.dailyPnL / s.riskLimits.maxDailyLoss| * 25 :=
    mul_nonneg (abs_nonneg _) (by norm_num)
  have t3 : 0 ≤ s.portfolioMetrics.maxDrawdown / s.riskLimits.maxDrawdown * 25 :=
    mul_nonneg (div_nonneg hdd hmdd) (by norm_num)
  have t4 : 0 ≤ s.portfolioMetrics.volatility / s.riskLimits.maxVolatility * 25 :=
    mul_nonneg (div_nonneg hv hmv) (by norm_num)
  linarith

/-- Witness for the amended C6 at the freshly initialized state: all
hypotheses hold there and the score is within `[0,100]`. -/
theorem calculateOverallRiskScore_range_witness :
    0 ≤ calculateOverallRiskScore initialRMState ∧
    calculateOverallRiskScore initialRMState ≤ 100 :=
  calculateOverallRiskScore_range initialRMState
    (by norm_num [initialRMState, initializePortfolioMetrics])
    (by norm_num [initialRMState, getDefaultRiskLimits])
    (by norm_num [initialRMState, initializePortfolioMetrics])
    (by norm_num [initialRMState, getDefaultRiskLimits])
    (by norm_num [initialRMState, initializePortfolioMetrics])
    (by norm_num [initialRMState, getDefaultRiskLimits])

/-- Invariant behind C9/C10: `totalValue` keeps its initialization value 0
(no operation assigns it), hence the high-water mark and the drawdown metric
stay 0, and `volatility`/`liquidity` also keep their initialization value 0. -/
def ZeroValueInv (s : RMState) : Prop :=
  s.portfolioMetrics.totalValue = 0 ∧ s.maxPortfolioValue = 0 ∧
  s.portfolioMetrics.maxDrawdown = 0 ∧
  s.portfolioMetrics.volatility = 0 ∧ s.portfolioMetrics.liquidity = 0

/-- `updatePortfolioMetrics` preserves the invariant: it reads `totalValue`
but never writes it, so the high-water mark update and the drawdown formula
both see 0. -/
theorem zeroValueInv_update (rand : Nat → ℚ) (today : Nat) (ps : List Position)
    (s : RMState) (h : ZeroValueInv s) :
    ZeroValueInv (updatePortfolioMetrics rand today ps s) := by
  obtain ⟨h1, h2, h3, h4, h5⟩ := h
  unfold ZeroValueInv updatePortfolioMetrics
  simp only [h1, h2, h3, h4, h5]
  norm_num

/-- `updateRiskLimits` does not touch the metrics or the high-water mark. -/
theorem zeroValueInv_limits (p : RiskLimitsPatch) (s : RMState) (h : ZeroValueInv s) :
    ZeroValueInv (updateRiskLimits p s) := h

/-- The invariant holds after any sequence of mutating operations from any
state satisfying it. -/
theorem zeroValueInv_runRMOps (rand : Nat → ℚ) (ops : List RMOp) (s : RMState)
    (h : ZeroValueInv s) : ZeroValueInv (runRMOps rand ops s) := by
  induction ops generalizing s with
  | nil => exact h
  | cons op rest ih =>
    simp only [runRMOps, List.foldl_cons] at ih ⊢
    cases op with
    | update today ps => exact ih _ (zeroValueInv_update rand today ps s h)
    | limits p => exact ih _ (zeroValueInv_limits p s h)

/-- A sequence of `updatePortfolioMetrics` calls preserves the invariant and
leaves the limits untouched. -/
theorem runUpdates_preserves (rand : Nat → ℚ) (inputs : List (Nat × List Position))
    (s : RMState) (h : ZeroValueInv s) :
    ZeroValueInv (runUpdates rand inputs s) ∧ (runUpdates rand inputs s).riskLimits = s.riskLimits := by
  induction inputs generalizing s with
  | nil => exact ⟨h, rfl⟩
  | cons inp rest ih =>
    simp only [runUpdates, List.foldl_cons] at ih ⊢
    have hstep : ZeroValueInv (updatePortfolioMetrics rand inp.1 inp.2 s) :=
      zeroValueInv_update rand inp.1 inp.2 s h
    have hrec := ih (updatePortfolioMetrics rand inp.1 inp.2 s) hstep
    exact ⟨hrec.1, hrec.2⟩

/-- The constructor state satisfies the invariant. -/
theorem zeroValueInv_initial : ZeroValueInv initialRMState :=
  ⟨rfl, rfl, rfl, rfl, rfl⟩

/-- C9: after any sequence of `updatePortfolioMetrics` calls from the fresh
`RiskManager` state, `totalValue`, the high-water mark and the drawdown metric
are all 0; consequently the drawdown hard-reject guard of
`checkPositionRisk`, the drawdown violation of `checkRiskLimits` and the
drawdown-based emergency trigger of `checkEmergencyConditions` (metric above
the default `emergencyStopLoss` 0.2) never fire. -/
theorem drawdown_paths_unreachable (rand : Nat → ℚ) (inputs : List (Nat × List Position)) :
    (runUpdates rand inputs initialRMState).portfolioMetrics.totalValue = 0 ∧
    (runUpdates rand inputs initialRMState).maxPortfolioValue = 0 ∧
    (runUpdates rand inputs initialRMState).portfolioMetrics.maxDrawdown = 0 ∧
    ¬ ((runUpdates rand inputs initialRMState).portfolioMetrics.maxDrawdown >
        (runUpdates rand inputs initialRMState).riskLimits.maxDrawdown) ∧
    "Drawdown limit exceeded" ∉ checkRiskLimitsViolations (runUpdates rand inputs initialRMState) ∧
    ¬ ((runUpdates rand inputs initialRMState).portfolioMetrics.maxDrawdown >
        getDefaultDiversificationConfig.emergencyStopLoss) := by
  obtain ⟨⟨h1, h2, h3, _, _⟩, hlim⟩ :=
    runUpdates_preserves rand inputs initialRMState zeroValueInv_initial
  have hguard : ¬ ((runUpdates rand inputs initialRMState).portfolioMetrics.maxDrawdown >
      (runUpdates rand inputs initialRMState).riskLimits.maxDrawdown) := by
    rw [h3, hlim]
    norm_num [initialRMState, getDefaultRiskLimits]
  refine ⟨h1, h2, h3, hguard, ?_, ?_⟩
  · unfold checkRiskLimitsViolations
    rw [if_neg hguard]
    split_ifs <;> simp
  · rw [h3]
    norm_num [getDefaultDiversificationConfig]

/-- C10: `volatility` and `liquidity` are never assigned by any mutating
`RiskManager` operation, so after any operation sequence they are still 0;
hence whenever `minLiquidity` is positive (as in the default limits) the
low-liquidity guard `liquidity < minLiquidity` of the composite scoring holds,
and the volatility terms of the per-trade and the overall score are 0. -/
theorem volatility_liquidity_stay_zero (rand : Nat → ℚ) (ops : List RMOp) :
    (runRMOps rand ops initialRMState).portfolioMetrics.volatility = 0 ∧
    (runRMOps rand ops initialRMState).portfolioMetrics.liquidity = 0 ∧
    (0 < (runRMOps rand ops initialRMState).riskLimits.minLiquidity →
      (runRMOps rand ops initialRMState).portfolioMetrics.liquidity <
        (runRMOps rand ops initialRMState).riskLimits.minLiquidity) ∧
    (runRMOps rand ops initialRMState).portfolioMetrics.volatility /
      (runRMOps rand ops initialRMState).riskLimits.maxVolatility * 10 = 0 ∧
    (runRMOps rand ops initialRMState).portfolioMetrics.volatility /
      (runRMOps rand ops initialRMState).riskLimits.maxVolatility * 25 = 0 ∧
    0 < initialRMState.riskLimits.minLiquidity := by
  obtain ⟨-, -, -, hv, hl⟩ := zeroValueInv_runRMOps rand ops initialRMState zeroValueInv_initial
  refine ⟨hv, hl, ?_, ?_, ?_, ?_⟩
  · intro hpos
    rw [hl]
    exact hpos
  · rw [hv, zero_div, zero_mul]
  · rw [hv, zero_div, zero_mul]
  · norm_num [initialRMState, getDefaultRiskLimits]

/-- A fixed stream standing in for `Math.random()`. -/
def zeroRand : Nat → ℚ := fun _ => 0

/-- Witness for C10 at the empty operation sequence: the default
`minLiquidity` is positive and the low-liquidity guard holds there. -/
theorem volatility_liquidity_stay_zero_witness :
    (runRMOps zeroRand [] initialRMState).portfolioMetrics.liquidity <
      (runRMOps zeroRand [] initialRMState).riskLimits.minLiquidity :=
  (volatility_liquidity_stay_zero zeroRand []).2.2.1
    (by norm_num [runRMOps, initialRMState, getDefaultRiskLimits])

/-- A stream of values in `(0,1)` standing in for successive `Math.random()`
draws. -/
def cexRand : Nat → ℚ := fun n => 1 / (n + 2)

/-- A single open position on the pair GALA/GUSDC. -/
def cexPosition : Position :=
  { id := "p1", tokenIn := "GALA", tokenOut := "GUSDC", amountIn := 100, amountOut := 0,
    entryPrice := 1, currentPrice := 1, stopLoss := none, takeProfit := none,
    status := PositionStatus.open_, createdAt := 0, updatedAt := 0 }

/-- State after one `updatePortfolioMetrics` call on the snapshot. -/
def cexFirst : RMState := updatePortfolioMetrics cexRand 0 [cexPosition] initialRMState

/-- State after a second call with the identical snapshot. -/
def cexSecond : RMState := updatePortfolioMetrics cexRand 0 [cexPosition] cexFirst

/-- A state carrying stale `volatility` and `winRate` values, to show they are
carried over rather than recomputed. -/
def staleState : RMState :=
  { initialRMState with
    portfolioMetrics :=
      { initializePortfolioMetrics with volatility := 42, winRate := 1/3 } }

/-- C5 counterexample: two successive `updatePortfolioMetrics` calls with the
identical snapshot produce different `correlationMatrix` fields (the
`Math.random()` placeholder consumes fresh draws), and fields like
`volatility` and (with no closed positions) `winRate` are carried over from
the previous state, not recomputed from the snapshot. -/
theorem updatePortfolioMetrics_not_idempotent :
    cexFirst.portfolioMetrics.correlationMatrix =
      [("GALA-GUSDC", 1/4), ("GUSDC-GALA", 1/6)] ∧
    cexSecond.portfolioMetrics.correlationMatrix =
      [("GALA-GUSDC", 1/8), ("GUSDC-GALA", 1/10)] ∧
    cexFirst.portfolioMetrics.correlationMatrix ≠
      cexSecond.portfolioMetrics.correlationMatrix ∧
    (updatePortfolioMetrics cexRand 0 [cexPosition] staleState).portfolioMetrics.volatility = 42 ∧
    (updatePortfolioMetrics cexRand 0 [cexPosition] staleState).portfolioMetrics.winRate = 1/3 := by
  have hctr : cexFirst.rngCtr = (calculateCorrelationMatrix cexRand 0 [cexPosition]).2 := rfl
  have hctr2 : (calculateCorrelationMatrix cexRand 0 [cexPosition]).2 = 2 := by
    simp [calculateCorrelationMatrix, dedupFirst, dedupFirstAux, cexPosition]
  have h1 : cexFirst.portfolioMetrics.correlationMatrix =
      (calculateCorrelationMatrix cexRand 0 [cexPosition]).1 := rfl
  have h2 : cexSecond.portfolioMetrics.correlationMatrix =
      (calculateCorrelationMatrix cexRand cexFirst.rngCtr [cexPosition]).1 := rfl
  have hv1 : (calculateCorrelationMatrix cexRand 0 [cexPosition]).1 =
      [("GALA-GUSDC", 1/4), ("GUSDC-GALA", 1/6)] := by
    simp [calculateCorrelationMatrix, dedupFirst, dedupFirstAux, cexPosition, cexRand,
      List.enum, List.enumFrom]
    norm_num
  have hv2 : (calculateCorrelationMatrix cexRand 2 [cexPosition]).1 =
      [("GALA-GUSDC", 1/8), ("GUSDC-GALA", 1/10)] := by
    simp [calculateCorrelationMatrix, dedupFirst, dedupFirstAux, cexPosition, cexRand,
      List.enum, List.enumFrom]
    norm_num
  have hA : cexFirst.portfolioMetrics.correlationMatrix =
      [("GALA-GUSDC", 1/4), ("GUSDC-GALA", 1/6)] := h1.trans hv1
  have hB : cexSecond.portfolioMetrics.correlationMatrix =
      [("GALA-GUSDC", 1/8), ("GUSDC-GALA", 1/10)] := by
    rw [h2, hctr, hctr2, hv2]
  refine ⟨hA, hB, ?_, rfl, rfl⟩
  rw [hA, hB]
  simp

/-- C5 amended: a second `updatePortfolioMetrics` call with the identical
snapshot differs from the first call's result only in the random-placeholder
`correlationMatrix` (and the advanced draw counter); every other
`PortfolioMetrics` field — including the fields the call carries over instead
of recomputing (`totalValue`, `sharpeRatio`, `volatility`, `liquidity`, and
the win statistics when no position is closed) — is identical, and the
high-water mark is monotone non-decreasing (unchanged on the repeat call). -/
theorem updatePortfolioMetrics_idempotent_except_matrix (rand : Nat → ℚ) (today : Nat)
    (ps : List Position) (s : RMState) :
    updatePortfolioMetrics rand today ps (updatePortfolioMetrics rand today ps s) =
      { updatePortfolioMetrics rand today ps s with
        rngCtr := (calculateCorrelationMatrix rand
          (updatePortfolioMetrics rand today ps s).rngCtr ps).2,
        portfolioMetrics := { (updatePortfolioMetrics rand today ps s).portfolioMetrics with
          correlationMatrix := (calculateCorrelationMatrix rand
            (updatePortfolioMetrics rand today ps s).rngCtr ps).1 } } ∧
    s.maxPortfolioValue ≤ (updatePortfolioMetrics rand today ps s).maxPortfolioValue := by
  constructor
  · obtain ⟨limits, metrics, pos, dsv, mpv, ctr⟩ := s
    simp only [updatePortfolioMetrics]
    split_ifs with h1 h2 h3 <;>
      simp_all [RMState.mk.injEq, PortfolioMetrics.mk.injEq] <;>
      first
        | linarith
        | rfl
  · obtain ⟨limits, metrics, pos, dsv, mpv, ctr⟩ := s
    simp only [updatePortfolioMetrics]
    split_ifs with h1 <;> simp_all
    linarith

/-- Modelled from the spec's words, for comparison with the code (C2): the
fraction of currently-open positions sharing either token with the proposed
trade. -/
def specCorrelationHeuristic (positions : List Position) (tokenIn tokenOut : String) : ℚ :=
  let openPs := positions.filter (fun p => p.status == PositionStatus.open_)
  let sharing := openPs.filter (fun p =>
    p.tokenIn == tokenIn || p.tokenIn == tokenOut || p.tokenOut == tokenIn || p.tokenOut == tokenOut)
  (sharing.length : ℚ) / (openPs.length : ℚ)

/-- State holding one open GALA/GUSDC position, with ample liquidity so the
liquidity penalty does not fire. -/
def corrState : RMState :=
  { initialRMState with
    positions := [cexPosition]
    portfolioMetrics := { initializePortfolioMetrics with liquidity := 20000 } }

/-- C2 counterexample: for the trade (GALA, GETH) against one open GALA/GUSDC
position, no hard reject fires; the fraction of open positions sharing a token
is `1 > 0.7 = maxCorrelation`, so the claimed formula adds `+20`, but the
code's heuristic (matching token occurrences over all token occurrences) is
`1/2 ≤ 0.7` and adds nothing: the returned score is `13/4`, not the claimed
`13/4 + 20`. -/
theorem checkPositionRisk_score_not_spec_heuristic :
    ¬ ((1 : ℚ) * 100 > corrState.riskLimits.maxPositionSize) ∧
    ¬ (corrState.portfolioMetrics.totalExposure + (1 : ℚ) * 100 >
        corrState.riskLimits.maxTotalExposure) ∧
    ¬ (corrState.portfolioMetrics.dailyPnL < - corrState.riskLimits.maxDailyLoss) ∧
    ¬ (corrState.portfolioMetrics.maxDrawdown > corrState.riskLimits.maxDrawdown) ∧
    ¬ (corrState.portfolioMetrics.liquidity < corrState.riskLimits.minLiquidity) ∧
    specCorrelationHeuristic corrState.positions "GALA" "GETH" >
      corrState.riskLimits.maxCorrelation ∧
    ¬ (calculateCorrelationRisk corrState.positions "GALA" "GETH" >
        corrState.riskLimits.maxCorrelation) ∧
    (checkPositionRisk corrState "GALA" "GETH" 1 100).riskScore = 13/4 ∧
    (13/4 : ℚ) ≠ 13/4 + 20 := by
  refine ⟨?_, ?_, ?_, ?_, ?_, ?_, ?_, ?_, by norm_num⟩
  · norm_num [corrState, initialRMState, getDefaultRiskLimits]
  · norm_num [corrState, initialRMState, getDefaultRiskLimits, initializePortfolioMetrics]
  · norm_num [corrState, initialRMState, getDefaultRiskLimits, initializePortfolioMetrics]
  · norm_num [corrState, initialRMState, getDefaultRiskLimits, initializePortfolioMetrics]
  · norm_num [corrState, initialRMState, getDefaultRiskLimits, initializePortfolioMetrics]
  · simp [specCorrelationHeuristic, corrState, cexPosition, initialRMState, getDefaultRiskLimits,
      List.filter_cons, List.filter_nil]
    norm_num
  · simp [calculateCorrelationRisk, corrState, cexPosition, initialRMState, getDefaultRiskLimits]
    norm_num
  · simp [checkPositionRisk, catchRiskCheck, checkPositionRiskCore, calculateCorrelationRisk,
      corrState, cexPosition, initialRMState, getDefaultRiskLimits, initializePortfolioMetrics]
    norm_num

/-- C2 amended: when none of the four hard rejects fires, the returned score
is the weighted sum plus `+20` when the code's correlation heuristic (the
ratio of matching token occurrences among all tracked positions' token
occurrences) exceeds `maxCorrelation` and `+15` when the liquidity metric is
below `minLiquidity`; the trade is allowed exactly when the score is strictly
below 80. -/
theorem checkPositionRisk_composite_score (s : RMState) (tokenIn tokenOut : String)
    (amount price : ℚ)
    (h1 : ¬ amount * price > s.riskLimits.maxPositionSize)
    (h2 : ¬ s.portfolioMetrics.totalExposure + amount * price > s.riskLimits.maxTotalExposure)
    (h3 : ¬ s.portfolioMetrics.dailyPnL < - s.riskLimits.maxDailyLoss)
    (h4 : ¬ s.portfolioMetrics.maxDrawdown > s.riskLimits.maxDrawdown) :
    (checkPositionRisk s tokenIn tokenOut amount price).riskScore =
      amount * price / s.riskLimits.maxPositionSize * 30 +
      (s.portfolioMetrics.totalExposure + amount * price) / s.riskLimits.maxTotalExposure * 25 +
      |s.portfolioMetrics.dailyPnL / s.riskLimits.maxDailyLoss| * 20 +
      s.portfolioMetrics.maxDrawdown / s.riskLimits.maxDrawdown * 15 +
      s.portfolioMetrics.volatility / s.riskLimits.maxVolatility * 10 +
      (if calculateCorrelationRisk s.positions tokenIn tokenOut > s.riskLimits.maxCorrelation
        then 20 else 0) +
      (if s.portfolioMetrics.liquidity < s.riskLimits.minLiquidity then 15 else 0) ∧
    ((checkPositionRisk s tokenIn tokenOut amount price).allowed = true ↔
      (checkPositionRisk s tokenIn tokenOut amount price).riskScore < 80) := by
  simp only [checkPositionRisk, catchRiskCheck, checkPositionRiskCore]
  rw [if_neg h1, if_neg h2, if_neg h3, if_neg h4]
  constructor
  · split_ifs <;> ring
  · split_ifs <;> simp

/-- Witness for the amended C2: on the fresh state (spec's empty-portfolio
scenario) with trade amount 10 at price 5, no hard reject fires, the score is
`3/2 + 1/8 + 15 = 133/8` (the liquidity penalty fires because the liquidity
metric 0 is below the default `minLiquidity`), and the trade is allowed. -/
theorem checkPositionRisk_composite_score_witness :
    (checkPositionRisk initialRMState "GALA" "GUSDC" 10 5).riskScore = 133/8 ∧
    (checkPositionRisk initialRMState "GALA" "GUSDC" 10 5).allowed = true := by
  have h := checkPositionRisk_composite_score initialRMState "GALA" "GUSDC" 10 5
    (by norm_num [initialRMState, getDefaultRiskLimits])
    (by norm_num [initialRMState, getDefaultRiskLimits, initializePortfolioMetrics])
    (by norm_num [initialRMState, getDefaultRiskLimits, initializePortfolioMetrics])
    (by norm_num [initialRMState, getDefaultRiskLimits, initializePortfolioMetrics])
  have hscore : (checkPositionRisk initialRMState "GALA" "GUSDC" 10 5).riskScore = 133/8 := by
    rw [h.1]
    simp [calculateCorrelationRisk, initialRMState, getDefaultRiskLimits,
      initializePortfolioMetrics]
    norm_num
  exact ⟨hscore, h.2.mpr (by rw [hscore]; norm_num)⟩

/-- Applying `setEnabled false` for name `n` and then disabling by a name list
`N` is the same as disabling by `n :: N`. -/
theorem disableIn_cons (n : String) (N : List String) (st : StrategyState) :
    disableIn N (if st.name == n then { st with enabled := false } else st) =
      disableIn (n :: N) st := by
  unfold disableIn
  by_cases h : st.name = n
  · simp only [h, beq_self_eq_true, if_true, List.mem_cons, true_or, if_pos]
    by_cases hm : n ∈ N <;> simp [hm]
  · simp only [beq_iff_eq, h, if_false, List.mem_cons]
    by_cases hm : st.name ∈ N <;> simp [hm, h]

/-- The disable loop of `reduceHighRiskExposure` acts as one map that disables
exactly the strategies named by a high-and-enabled allocation. -/
theorem foldl_disable_eq_map (allocs : List (String × PortfolioAllocation))
    (strats : List StrategyState) :
    allocs.foldl
      (fun strats pr =>
        if pr.2.riskLevel == RiskLevel.high && pr.2.enabled then
          setStrategyEnabled pr.1 false strats
        else strats)
      strats = strats.map (disableIn (hiNames allocs)) := by
  induction allocs generalizing strats with
  | nil =>
    simp only [List.foldl_nil]
    rw [List.map_congr_left
      (fun st _ => by simp [hiNames, disableIn] :
        ∀ st ∈ strats, disableIn (hiNames []) st = id st), List.map_id]
  | cons pr rest ih =>
    simp only [List.foldl_cons]
    by_cases h : (pr.2.riskLevel == RiskLevel.high && pr.2.enabled) = true
    · rw [if_pos h, ih]
      have hn : hiNames (pr :: rest) = pr.1 :: hiNames rest := by
        simp [hiNames, List.filter_cons, h]
      rw [hn, setStrategyEnabled, List.map_map]
      exact List.map_congr_left (fun st _ => disableIn_cons pr.1 (hiNames rest) st)
    · rw [if_neg h, ih]
      have hn : hiNames (pr :: rest) = hiNames rest := by
        simp [hiNames, List.filter_cons, h]
      rw [hn]

/-- Disabling twice by the same name list is the same as disabling once. -/
theorem disableIn_idem (N : List String) (st : StrategyState) :
    disableIn N (disableIn N st) = disableIn N st := by
  unfold disableIn
  by_cases h : st.name ∈ N <;> simp [h]

/-- When the risk score exceeds 70, the monitoring reaction is exactly the
disable-by-name map. -/
theorem checkDiversification_eq_map (score : ℚ) (s : PMState) (h : score > 70) :
    checkDiversification score s =
      { s with strategies := s.strategies.map (disableIn (hiNames s.allocations)) } := by
  unfold checkDiversification reduceHighRiskExposure
  rw [if_pos h, foldl_disable_eq_map]

/-- Claim C7: when the overall risk score exceeds 70, the monitoring cycle
disables every strategy unit whose allocation has `riskLevel = high` and is
enabled; units whose allocation is not high-and-enabled are skipped
(unchanged), and the action is idempotent: repeating the cycle with a score
above 70 leaves the same final state. -/
theorem checkDiversification_high_risk_disable (score : ℚ) (s : PMState) (h : score > 70) :
    (checkDiversification score s).strategies =
      s.strategies.map (disableIn (hiNames s.allocations)) ∧
    (∀ pr ∈ s.allocations, pr.2.riskLevel = RiskLevel.high → pr.2.enabled = true →
      ∀ st ∈ (checkDiversification score s).strategies, st.name = pr.1 → st.enabled = false) ∧
    (∀ st ∈ s.strategies, st.name ∉ hiNames s.allocations →
      st ∈ (checkDiversification score s).strategies) ∧
    checkDiversification score (checkDiversification score s) = checkDiversification score s := by
  have hmap := checkDiversification_eq_map score s h
  refine ⟨by rw [hmap], ?_, ?_, ?_⟩
  · intro pr hpr hlevel hen st hst hname
    rw [hmap] at hst
    simp only [List.mem_map] at hst
    obtain ⟨st0, hst0, rfl⟩ := hst
    have hmem : pr.1 ∈ hiNames s.allocations := by
      simp only [hiNames, List.mem_map, List.mem_filter]
      exact ⟨pr, ⟨hpr, by simp [hlevel, hen]⟩, rfl⟩
    have hpres : (disableIn (hiNames s.allocations) st0).name = st0.name := by
      unfold disableIn
      split_ifs <;> rfl
    have hmem0 : st0.name ∈ hiNames s.allocations := by
      rw [hpres.symm.trans hname]
      exact hmem
    show (disableIn (hiNames s.allocations) st0).enabled = false
    unfold disableIn
    rw [if_pos hmem0]
  · intro st hst hname
    rw [hmap]
    simp only [List.mem_map]
    exact ⟨st, hst, by simp [disableIn, hname]⟩
  · rw [hmap, checkDiversification_eq_map score _ h]
    have hXX : ((s.strategies.map (disableIn (hiNames s.allocations))).map
        (disableIn (hiNames s.allocations))) =
        s.strategies.map (disableIn (hiNames s.allocations)) := by
      rw [List.map_map]
      exact List.map_congr_left (fun st _ => disableIn_idem _ st)
    exact congrArg (fun L => { s with strategies := L }) hXX

/-- The default `dca` allocation (low risk, enabled). -/
def dcaAlloc : PortfolioAllocation :=
  { strategy := "dca", allocation := 40, riskLevel := RiskLevel.low,
    maxPositionSize := 1000, enabled := true }

/-- The default `momentum` allocation (high risk, enabled). -/
def momAlloc : PortfolioAllocation :=
  { strategy := "momentum", allocation := 10, riskLevel := RiskLevel.high,
    maxPositionSize := 200, enabled := true }

/-- A small portfolio-manager state with one low-risk and one high-risk unit. -/
def pmWitnessState : PMState :=
  { strategies :=
      [{ name := "dca", enabled := true, isRunning := true, positions := [] },
       { name := "momentum", enabled := true, isRunning := true, positions := [] }]
    allocations := [("dca", dcaAlloc), ("momentum", momAlloc)]
    totalPortfolioValue := 0
    isRunning := true }

/-- Witness for claim C7 at score 80: the high-risk `momentum` unit ends up
disabled and a repeated cycle changes nothing. -/
theorem checkDiversification_high_risk_disable_witness :
    (∀ st ∈ (checkDiversification 80 pmWitnessState).strategies,
        st.name = "momentum" → st.enabled = false) ∧
    checkDiversification 80 (checkDiversification 80 pmWitnessState) =
      checkDiversification 80 pmWitnessState := by
  have h := checkDiversification_high_risk_disable 80 pmWitnessState (by norm_num)
  refine ⟨?_, h.2.2.2⟩
  intro st hst hname
  exact h.2.1 ("momentum", momAlloc) (by simp [pmWitnessState]) rfl rfl st hst hname

/-- After the force-close loop no position is still open. -/
theorem forceCloseOpen_no_open (now : Nat) (ps : List Position) :
    ∀ p ∈ forceCloseOpen now ps, p.status ≠ PositionStatus.open_ := by
  intro p hp
  simp only [forceCloseOpen, List.mem_map] at hp
  obtain ⟨q, hq, rfl⟩ := hp
  by_cases h : q.status = PositionStatus.open_ <;> simp [h]

/-- Force-closing twice is the same as force-closing once, whatever the second
timestamp. -/
theorem forceCloseOpen_idem (now1 now2 : Nat) (ps : List Position) :
    forceCloseOpen now2 (forceCloseOpen now1 ps) = forceCloseOpen now1 ps := by
  unfold forceCloseOpen
  rw [List.map_map]
  refine List.map_congr_left (fun p _ => ?_)
  by_cases h : p.status = PositionStatus.open_ <;> simp [h]

/-- `emergencyStop` in one map: every unit gets its running flag cleared and
its open positions stopped. -/
theorem emergencyStop_eq (now : Nat) (s : PMState) :
    emergencyStop now s =
      { s with
        isRunning := false
        strategies :=
          (s.strategies.map (fun st =>
            { st with isRunning := false, positions := forceCloseOpen now st.positions })) } := by
  simp only [emergencyStop]
  rw [List.map_map]
  exact congrArg (fun L => ({ s with isRunning := false, strategies := L } : PMState))
    (List.map_congr_left (fun st _ => rfl))

/-- Projection of `emergencyStop_eq` to the strategy list. -/
theorem emergencyStop_strategies (now : Nat) (s : PMState) :
    (emergencyStop now s).strategies =
      (s.strategies.map (fun st =>
        { st with isRunning := false, positions := forceCloseOpen now st.positions })) := by
  rw [emergencyStop_eq]

/-- Claim C8: after one `emergencyStop` the portfolio is not running, every
unit is stopped, every previously-open position is recorded with status
`stopped` (at the stop timestamp) while other positions are untouched, no
open position remains, and a second invocation — at any later timestamp — is
the identity on the stopped state, so each position is closed exactly once. -/
theorem emergencyStop_idempotent (now1 now2 : Nat) (s : PMState) :
    (emergencyStop now1 s).isRunning = false ∧
    (∀ st ∈ (emergencyStop now1 s).strategies, st.isRunning = false) ∧
    (∀ st ∈ (emergencyStop now1 s).strategies, ∀ p ∈ st.positions,
      p.status ≠ PositionStatus.open_) ∧
    (∀ st ∈ s.strategies, ∀ p ∈ st.positions, p.status = PositionStatus.open_ →
      ∃ st' ∈ (emergencyStop now1 s).strategies, st'.name = st.name ∧
        { p with status := PositionStatus.stopped, updatedAt := now1 } ∈ st'.positions) ∧
    (∀ st ∈ s.strategies, ∀ p ∈ st.positions, p.status ≠ PositionStatus.open_ →
      ∃ st' ∈ (emergencyStop now1 s).strategies, st'.name = st.name ∧ p ∈ st'.positions) ∧
    emergencyStop now2 (emergencyStop now1 s) = emergencyStop now1 s := by
  refine ⟨rfl, ?_, ?_, ?_, ?_, ?_⟩
  · intro st hst
    rw [emergencyStop_eq now1 s] at hst
    simp only [List.mem_map] at hst
    obtain ⟨st0, hst0, rfl⟩ := hst
    rfl
  · intro st hst
    rw [emergencyStop_eq now1 s] at hst
    simp only [List.mem_map] at hst
    obtain ⟨st0, hst0, rfl⟩ := hst
    exact forceCloseOpen_no_open now1 st0.positions
  · intro st hst p hp hopen
    refine ⟨{ st with isRunning := false, positions := forceCloseOpen now1 st.positions },
      ?_, rfl, ?_⟩
    · rw [emergencyStop_strategies now1 s]
      simp only [List.mem_map]
      exact ⟨st, hst, rfl⟩
    · simp only [forceCloseOpen, List.mem_map]
      exact ⟨p, hp, by simp [hopen]⟩
  · intro st hst p hp hopen
    refine ⟨{ st with isRunning := false, positions := forceCloseOpen now1 st.positions },
      ?_, rfl, ?_⟩
    · rw [emergencyStop_strategies now1 s]
      simp only [List.mem_map]
      exact ⟨st, hst, rfl⟩
    · simp only [forceCloseOpen, List.mem_map]
      exact ⟨p, hp, by simp [hopen]⟩
  · rw [emergencyStop_eq now1 s, emergencyStop_eq now2]
    have hXX : (s.strategies.map (fun st =>
        { st with isRunning := false, positions := forceCloseOpen now1 st.positions })).map
          (fun st => { st with isRunning := false, positions := forceCloseOpen now2 st.positions }) =
        s.strategies.map (fun st =>
          { st with isRunning := false, positions := forceCloseOpen now1 st.positions }) := by
      rw [List.map_map]
      refine List.map_congr_left (fun st _ => ?_)
      simp [forceCloseOpen_idem]
    exact congrArg (fun L => ({ s with isRunning := false, strategies := L } : PMState)) hXX

/-- Witness for claim C3 at a concrete thrown error. -/
theorem checkPositionRisk_error_fails_closed_witness :
    (catchRiskCheck (Except.error "malformed snapshot")).allowed = false ∧
    (catchRiskCheck (Except.error "malformed snapshot")).riskScore = 100 := by
  have h := checkPositionRisk_error_fails_closed "malformed snapshot"
  exact ⟨h.1, h.2.1⟩

/-- Witness for the amended C4 at the concrete negative update: the provided
field is overwritten (with the negative value) and every omitted field keeps
its default. -/
theorem updateRiskLimits_merges_without_validation_witness :
    (updateRiskLimits negativePatch initialRMState).riskLimits =
      { getDefaultRiskLimits with maxPositionSize := -5 } := by
  rw [updateRiskLimits_merges_without_validation negativePatch initialRMState]
  rfl

/-- Witness for the amended C5 at the concrete snapshot: the second call
equals the first except for the fresh correlation matrix and draw counter, and
the high-water mark did not decrease. -/
theorem updatePortfolioMetrics_idempotent_except_matrix_witness :
    updatePortfolioMetrics cexRand 0 [cexPosition] cexFirst =
      { cexFirst with
        rngCtr := (calculateCorrelationMatrix cexRand cexFirst.rngCtr [cexPosition]).2
        portfolioMetrics := { cexFirst.portfolioMetrics with
          correlationMatrix :=
            (calculateCorrelationMatrix cexRand cexFirst.rngCtr [cexPosition]).1 } } ∧
    initialRMState.maxPortfolioValue ≤ cexFirst.maxPortfolioValue :=
  updatePortfolioMetrics_idempotent_except_matrix cexRand 0 [cexPosition] initialRMState

/-- A one-unit portfolio holding a single open position. -/
def pmStopState : PMState :=
  { strategies :=
      [{ name := "dca", enabled := true, isRunning := true, positions := [cexPosition] }]
    allocations := [("dca", dcaAlloc)]
    totalPortfolioValue := 0
    isRunning := true }

/-- Witness for claim C8 at a concrete portfolio: after the stop the open
position reappears as `stopped` at the stop timestamp, the portfolio is no
longer running, and a second stop at a later timestamp changes nothing. -/
theorem emergencyStop_idempotent_witness :
    (emergencyStop 5 pmStopState).isRunning = false ∧
    (∃ st' ∈ (emergencyStop 5 pmStopState).strategies, st'.name = "dca" ∧
      { cexPosition with status := PositionStatus.stopped, updatedAt := 5 } ∈ st'.positions) ∧
    emergencyStop 7 (emergencyStop 5 pmStopState) = emergencyStop 5 pmStopState := by
  have h := emergencyStop_idempotent 5 7 pmStopState
  refine ⟨h.1, ?_, h.2.2.2.2.2⟩
  have hs : ({ name := "dca", enabled := true, isRunning := true, positions := [cexPosition] } : StrategyState) ∈ pmStopState.strategies := by
    simp [pmStopState]
  have hp : cexPosition ∈ ({ name := "dca", enabled := true, isRunning := true, positions := [cexPosition] } : StrategyState).positions := by
    simp
  obtain ⟨st', hst', hname, hmem⟩ := h.2.2.2.1 _ hs cexPosition hp rfl
  exact ⟨st', hst', hname, hmem⟩

/-- Witness for claim C9 after one concrete metrics update: the drawdown
metric is 0, the hard-reject guard is off and the violation list has no
drawdown entry. -/
theorem drawdown_paths_unreachable_witness :
    (runUpdates cexRand [(0, [cexPosition])] initialRMState).portfolioMetrics.maxDrawdown = 0 ∧
    "Drawdown limit exceeded" ∉
      checkRiskLimitsViolations (runUpdates cexRand [(0, [cexPosition])] initialRMState) := by
  have h := drawdown_paths_unreachable cexRand [(0, [cexPosition])]
  exact ⟨h.2.2.1, h.2.2.2.2.1⟩
